import Mathlib

/-!
Verification development for the directus-mcp tool layer.

The sources present are src/src/tools/dashboard-tools.ts and the two test
files dashboard-tools.test.ts and panel-tools.test.ts.  The helper modules
they import (tool-helpers.ts with createTool / createActionTool,
validators.ts with the shared primitive schemas, panel-tools.ts, and
directus-client.ts) are not among the sources; those parts are modelled
from the specification, as marked on each definition.

Conventions of the embedding:
  * JSON values are the inductive `JValue`; machine numbers are `Int`.
  * zod schemas are a deep AST `Schema`, so that "this field is composed
    from the shared UuidSchema" is a decidable statement about the AST.
  * A tool handler is a computation in the free monad `HandlerM`, whose
    interpreter against a pure backend client returns both the list of
    client calls made and the final outcome; "exactly one backend call"
    is a theorem about that trace.
  * Thrown / rejected backend errors are `Except.error` with the already
    stringified message.
-/

/-- JSON-like values exchanged between tools and the backend client. -/
inductive JValue where
  | null : JValue
  | bool : Bool → JValue
  | num : Int → JValue
  | str : String → JValue
  | arr : List JValue → JValue
  | obj : List (String × JValue) → JValue

/-- Escape of a single character inside a JSON string literal. -/
def jsonEscapeChar (c : Char) : String :=
  if c = '\"' then "\\\""
  else if c = '\\' then "\\\\"
  else if c = '\n' then "\\n"
  else if c = '\t' then "\\t"
  else if c = '\r' then "\\r"
  else String.singleton c

/-- Escape of a JSON string body, as JSON.stringify does. -/
def jsonEscape (s : String) : String :=
  String.join (s.toList.map jsonEscapeChar)

/-- `n` spaces, the indentation unit of JSON.stringify(v, null, 2). -/
def indentStr (n : Nat) : String :=
  String.mk (List.replicate n ' ')

mutual

/-- Embedding of JSON.stringify(v, null, 2) at nesting depth `d`:
pretty printing with two-space indentation. -/
def stringifyAux (d : Nat) : JValue → String
  | JValue.null => "null"
  | JValue.bool true => "true"
  | JValue.bool false => "false"
  | JValue.num n => toString n
  | JValue.str s => "\"" ++ jsonEscape s ++ "\""
  | JValue.arr [] => "[]"
  | JValue.arr (x :: xs) =>
      "[\n" ++ String.intercalate ",\n" (stringifyItems (d + 1) (x :: xs)) ++
        "\n" ++ indentStr (2 * d) ++ "]"
  | JValue.obj [] => "\x7b\x7d"
  | JValue.obj (kv :: kvs) =>
      "\x7b\n" ++ String.intercalate ",\n" (stringifyMembers (d + 1) (kv :: kvs)) ++
        "\n" ++ indentStr (2 * d) ++ "\x7d"

/-- The lines of an array body, each already indented. -/
def stringifyItems (d : Nat) : List JValue → List String
  | [] => []
  | x :: xs => (indentStr (2 * d) ++ stringifyAux d x) :: stringifyItems d xs

/-- The lines of an object body, each already indented. -/
def stringifyMembers (d : Nat) : List (String × JValue) → List String
  | [] => []
  | (k, v) :: kvs =>
      (indentStr (2 * d) ++ "\"" ++ jsonEscape k ++ "\": " ++ stringifyAux d v) ::
        stringifyMembers d kvs

end

/-- JSON.stringify(v, null, 2), the serialization applied to backend
responses by the tool wrapper. -/
def stringifyPretty (v : JValue) : String :=
  stringifyAux 0 v

/-- First value bound to key `k` in an association list, as JS property
lookup on an object literal. -/
def jfind (kvs : List (String × JValue)) (k : String) : Option JValue :=
  (kvs.find? (fun kv => kv.1 == k)).map (fun kv => kv.2)

/-- JS property access `v[k]` on an object, `none` elsewhere. -/
def jget (v : JValue) (k : String) : Option JValue :=
  match v with
  | JValue.obj kvs => jfind kvs k
  | _ => none

/-- The string stored at key `k` (schema-validated callers guarantee the
key holds a string; other cases default to ""). -/
def jgetStr (v : JValue) (k : String) : String :=
  match jget v k with
  | some (JValue.str s) => s
  | _ => ""

/-- The array of strings stored at key `k` (schema-validated callers
guarantee the shape; other cases default). -/
def jgetStrList (v : JValue) (k : String) : List String :=
  match jget v k with
  | some (JValue.arr xs) => xs.map (fun x => match x with
      | JValue.str s => s
      | _ => "")
  | _ => []

/-- The array of values stored at key `k`. -/
def jgetArr (v : JValue) (k : String) : List JValue :=
  match jget v k with
  | some (JValue.arr xs) => xs
  | _ => []

/-- JS rest destructuring `const \x7b id, ...rest \x7d = v`: the object
without key `k`, other fields unchanged and in order. -/
def jwithout (v : JValue) (k : String) : JValue :=
  match v with
  | JValue.obj kvs => JValue.obj (kvs.filter (fun kv => !(kv.1 == k)))
  | _ => v

mutual

/-- Deep embedding of the zod schema expressions used by the tool files.
The base constructor `uuid` is the shared UuidSchema primitive; it is kept
distinct from the plain `str` (z.string()) constructor so that "composed
from the shared UUID validator" is a statement about the AST.

Modelled from the spec for the part living in the missing validators.ts:
the shared primitive schemas (UUID, fields list, filter object, search
string, sort list, pagination limit/offset, meta flag).  The test files
invoke handlers with non-UUID ids such as "dash-1" and expect validation
to pass, so the UUID primitive accepts any string at runtime; it differs
from `str` only as a named shared validator. -/
inductive Schema where
  | uuid : Schema
  | str : Schema
  | strMin : Nat → Schema
  | num : Schema
  | boolean : Schema
  | anyObj : Schema
  | array : Schema → Schema
  | opt : Schema → Schema
  | obj : Fields → Schema

inductive Fields where
  | nil : Fields
  | cons : String → Schema → Fields → Fields

end

/-- A field list written as a plain list, for readable schema
declarations. -/
def Fields.ofList : List (String × Schema) → Fields
  | [] => Fields.nil
  | (k, s) :: rest => Fields.cons k s (Fields.ofList rest)

/-- Whether a schema is an optional (z.optional) wrapper: inside an object
an optional field may be absent. -/
def Schema.isOpt : Schema → Bool
  | Schema.opt _ => true
  | _ => false

/-- Collecting a list of optional values, failing when any is missing. -/
def allSome {α : Type} : List (Option α) → Option (List α)
  | [] => some []
  | some a :: rest => (allSome rest).map (fun l => a :: l)
  | none :: _ => none

mutual

/-- zod `.parse`: validate a value against a schema, returning the parsed
value (with unknown object keys stripped, zod's default) or `none` when
validation fails. -/
def Schema.parse : Schema → JValue → Option JValue
  | Schema.uuid, JValue.str s => some (JValue.str s)
  | Schema.str, JValue.str s => some (JValue.str s)
  | Schema.strMin n, JValue.str s =>
      if n ≤ s.length then some (JValue.str s) else none
  | Schema.num, JValue.num m => some (JValue.num m)
  | Schema.boolean, JValue.bool b => some (JValue.bool b)
  | Schema.anyObj, JValue.obj kvs => some (JValue.obj kvs)
  | Schema.array s, JValue.arr xs =>
      (allSome (xs.map (Schema.parse s))).map JValue.arr
  | Schema.opt s, v => Schema.parse s v
  | Schema.obj fs, JValue.obj kvs =>
      (Schema.parseFields fs kvs).map JValue.obj
  | _, _ => none

/-- Parse of an object against its field schemas: a required field must be
present and valid, an optional field may be absent, unknown keys are
dropped. -/
def Schema.parseFields : Fields → List (String × JValue) →
    Option (List (String × JValue))
  | Fields.nil, _ => some []
  | Fields.cons k s fs, kvs =>
      match jfind kvs k with
      | some v =>
          match Schema.parse s v, Schema.parseFields fs kvs with
          | some w, some rest => some ((k, w) :: rest)
          | _, _ => none
      | none =>
          if s.isOpt then Schema.parseFields fs kvs else none

end

/-- zod validation as a boolean: the input satisfies the schema exactly
when `.parse` succeeds. -/
def Schema.check (s : Schema) (v : JValue) : Bool :=
  (Schema.parse s v).isSome

/-- The schema declared for key `k` in a field list. -/
def Fields.find : Fields → String → Option Schema
  | Fields.nil, _ => none
  | Fields.cons k s rest, key =>
      if k == key then some s else Fields.find rest key

/-- The declared schema of field `k` of an object schema. -/
def Schema.field (s : Schema) (k : String) : Option Schema :=
  match s with
  | Schema.obj fs => Fields.find fs k
  | _ => none

/-- Modelled from the spec: the backend client (directus-client.ts is not
among the sources) is "a typed interface with one method per CRUD
operation" on dashboards and panels, invoked opaquely.  A `ClientCall` is
one invocation of one such method with its arguments, the method names
being those the test files list on the mock client. -/
inductive ClientCall where
  | listDashboards : JValue → ClientCall
  | getDashboard : String → JValue → ClientCall
  | createDashboard : JValue → ClientCall
  | createDashboards : List JValue → ClientCall
  | updateDashboard : String → JValue → ClientCall
  | updateDashboards : List JValue → ClientCall
  | deleteDashboard : String → ClientCall
  | deleteDashboards : List String → ClientCall
  | listPanels : JValue → ClientCall
  | getPanel : String → JValue → ClientCall
  | createPanel : JValue → ClientCall
  | createPanels : List JValue → ClientCall
  | updatePanel : String → JValue → ClientCall
  | updatePanels : List JValue → ClientCall
  | deletePanel : String → ClientCall
  | deletePanels : List String → ClientCall

/-- The backend-client method a call invokes, by its interface name. -/
def ClientCall.methodName : ClientCall → String
  | ClientCall.listDashboards _ => "listDashboards"
  | ClientCall.getDashboard _ _ => "getDashboard"
  | ClientCall.createDashboard _ => "createDashboard"
  | ClientCall.createDashboards _ => "createDashboards"
  | ClientCall.updateDashboard _ _ => "updateDashboard"
  | ClientCall.updateDashboards _ => "updateDashboards"
  | ClientCall.deleteDashboard _ => "deleteDashboard"
  | ClientCall.deleteDashboards _ => "deleteDashboards"
  | ClientCall.listPanels _ => "listPanels"
  | ClientCall.getPanel _ _ => "getPanel"
  | ClientCall.createPanel _ => "createPanel"
  | ClientCall.createPanels _ => "createPanels"
  | ClientCall.updatePanel _ _ => "updatePanel"
  | ClientCall.updatePanels _ => "updatePanels"
  | ClientCall.deletePanel _ => "deletePanel"
  | ClientCall.deletePanels _ => "deletePanels"

/-- The separate first id argument of a call, when the method takes one. -/
def ClientCall.idArg : ClientCall → Option String
  | ClientCall.getDashboard i _ => some i
  | ClientCall.updateDashboard i _ => some i
  | ClientCall.deleteDashboard i => some i
  | ClientCall.getPanel i _ => some i
  | ClientCall.updatePanel i _ => some i
  | ClientCall.deletePanel i => some i
  | _ => none

/-- The object forwarded after the id argument (the remaining query
parameters of a get, or the update payload), when the method takes one. -/
def ClientCall.payload : ClientCall → Option JValue
  | ClientCall.getDashboard _ p => some p
  | ClientCall.updateDashboard _ d => some d
  | ClientCall.getPanel _ p => some p
  | ClientCall.updatePanel _ d => some d
  | _ => none

/-- A pure backend client: each call either resolves with a JSON response
or rejects with an (already stringified) error message. -/
def Client : Type :=
  ClientCall → Except String JValue

/-- Free-monad computations of a raw tool handler: a handler may return a
value or make a backend-client call and continue with its response.  The
interpreter below records every call made, so "exactly one backend call"
is a provable property of a handler rather than a typing assumption. -/
inductive HandlerM (α : Type) where
  | ret : α → HandlerM α
  | call : ClientCall → (JValue → HandlerM α) → HandlerM α

/-- Run a handler computation against a client, recording the calls made
in order.  A rejected call (as an awaited promise rejection) aborts the
rest of the computation with the error. -/
def HandlerM.run {α : Type} (client : Client) : HandlerM α →
    List ClientCall × Except String α
  | HandlerM.ret a => ([], Except.ok a)
  | HandlerM.call c k =>
      match client c with
      | Except.error e => ([c], Except.error e)
      | Except.ok v =>
          let r := HandlerM.run client (k v)
          (c :: r.1, r.2)

/-- The MCP result envelope: a list of text content items plus the error
flag. -/
structure ToolResult where
  content : List String
  isError : Bool
deriving DecidableEq

/-- Configuration record passed to createTool: name, description, input
schema, toolset tags and the raw handler (dashboard-tools.ts lines
66-113). -/
structure ToolConfig where
  name : String
  description : String
  inputSchema : Schema
  toolsets : List String
  handler : JValue → HandlerM JValue

/-- Configuration record passed to createActionTool: additionally the
success-message formatter over the validated arguments
(dashboard-tools.ts lines 114-129). -/
structure ActionToolConfig where
  name : String
  description : String
  inputSchema : Schema
  toolsets : List String
  handler : JValue → HandlerM JValue
  successMessage : JValue → String

/-- The uniform tool descriptor built by the factory: name, description,
input schema, toolset tags, the wrapped handler, and the optional
success-message formatter (present only on action tools). -/
structure Tool where
  name : String
  description : String
  inputSchema : Schema
  toolsets : List String
  successMessage : Option (JValue → String)
  handler : Client → JValue → List ClientCall × ToolResult

/-- Modelled from the spec: the wrapping performed by the tool factory in
the missing tool-helpers.ts — "wraps the handler with validation +
envelope formatting" and "no failure-handling logic beyond validate then
forward; catch and stringify".  Input failing schema validation is
rejected before any backend call; on success the response is serialized
with JSON.stringify(v, null, 2) (or replaced by the success message when
a formatter is given, as the delete-tool tests show); a rejected backend
call is caught and its stringified message returned in the error
envelope. -/
def wrapRun (sch : Schema) (h : JValue → HandlerM JValue)
    (fmt : Option (JValue → String)) (client : Client) (raw : JValue) :
    List ClientCall × ToolResult :=
  match Schema.parse sch raw with
  | none => ([], { content := ["Invalid arguments"], isError := true })
  | some args =>
      match HandlerM.run client (h args) with
      | (cs, Except.ok v) =>
          (cs, { content := [match fmt with
                             | some f => f args
                             | none => stringifyPretty v],
                 isError := false })
      | (cs, Except.error e) =>
          (cs, { content := [e], isError := true })

/-- Modelled from the spec: createTool of the missing tool-helpers.ts
builds the uniform descriptor with no success-message formatter. -/
def createTool (cfg : ToolConfig) : Tool :=
  { name := cfg.name
    description := cfg.description
    inputSchema := cfg.inputSchema
    toolsets := cfg.toolsets
    successMessage := none
    handler := wrapRun cfg.inputSchema cfg.handler none }

/-- Modelled from the spec: createActionTool of the missing
tool-helpers.ts builds the uniform descriptor carrying the
success-message formatter, whose output replaces the serialized response
on success. -/
def createActionTool (cfg : ActionToolConfig) : Tool :=
  { name := cfg.name
    description := cfg.description
    inputSchema := cfg.inputSchema
    toolsets := cfg.toolsets
    successMessage := some cfg.successMessage
    handler := wrapRun cfg.inputSchema cfg.handler (some cfg.successMessage) }

/-- Modelled from the spec: the shared UUID primitive of the missing
validators.ts (see the note on `Schema`). -/
def UuidSchema : Schema := Schema.uuid

/-- Modelled from the spec: the shared fields-list primitive of the
missing validators.ts, an optional list of field names. -/
def FieldsSchema : Schema := Schema.opt (Schema.array Schema.str)

/-- Modelled from the spec: the shared filter-object primitive of the
missing validators.ts; the backend filtering DSL is opaque, so any
object is accepted and forwarded unchanged. -/
def FilterSchema : Schema := Schema.opt Schema.anyObj

/-- Modelled from the spec: the shared search-string primitive of the
missing validators.ts. -/
def SearchSchema : Schema := Schema.opt Schema.str

/-- Modelled from the spec: the shared sort-list primitive of the missing
validators.ts, an optional list of sort expressions. -/
def SortSchema : Schema := Schema.opt (Schema.array Schema.str)

/-- Modelled from the spec: the shared pagination-limit primitive of the
missing validators.ts. -/
def LimitSchema : Schema := Schema.opt Schema.num

/-- Modelled from the spec: the shared pagination-offset primitive of the
missing validators.ts. -/
def OffsetSchema : Schema := Schema.opt Schema.num

/-- Modelled from the spec: the shared meta-flag primitive of the missing
validators.ts; the tests pass the string "total_count". -/
def MetaSchema : Schema := Schema.opt Schema.str

/-- dashboard-tools.ts lines 15-23. -/
def ListDashboardsSchema : Schema := Schema.obj
  (Fields.ofList
  [("fields", FieldsSchema), ("filter", FilterSchema),
   ("search", SearchSchema), ("sort", SortSchema), ("limit", LimitSchema),
   ("offset", OffsetSchema), ("meta", MetaSchema)])

/-- dashboard-tools.ts lines 25-29. -/
def GetDashboardSchema : Schema := Schema.obj
  (Fields.ofList
  [("id", UuidSchema), ("fields", FieldsSchema), ("meta", MetaSchema)])

/-- dashboard-tools.ts lines 31-38: name is z.string().min(1), the rest
optional. -/
def CreateDashboardSchema : Schema := Schema.obj
  (Fields.ofList
  [("name", Schema.strMin 1), ("icon", Schema.opt Schema.str),
   ("note", Schema.opt Schema.str), ("color", Schema.opt Schema.str),
   ("user_created", Schema.opt UuidSchema),
   ("date_created", Schema.opt Schema.str)])

/-- dashboard-tools.ts lines 40-42. -/
def CreateDashboardsSchema : Schema := Schema.obj
  (Fields.ofList
  [("dashboards", Schema.array CreateDashboardSchema)])

/-- dashboard-tools.ts lines 44-50. -/
def UpdateDashboardSchema : Schema := Schema.obj
  (Fields.ofList
  [("id", UuidSchema), ("name", Schema.opt Schema.str),
   ("icon", Schema.opt Schema.str), ("note", Schema.opt Schema.str),
   ("color", Schema.opt Schema.str)])

/-- dashboard-tools.ts lines 52-54. -/
def UpdateDashboardsSchema : Schema := Schema.obj
  (Fields.ofList
  [("dashboards", Schema.array UpdateDashboardSchema)])

/-- dashboard-tools.ts lines 56-58. -/
def DeleteDashboardSchema : Schema := Schema.obj (Fields.ofList [("id", UuidSchema)])

/-- dashboard-tools.ts lines 60-62: the ids entry is z.array(z.string()),
an array of plain strings, not of the shared UuidSchema. -/
def DeleteDashboardsSchema : Schema := Schema.obj
  (Fields.ofList
  [("ids", Schema.array Schema.str)])

/-- dashboard-tools.ts lines 66-72. -/
def list_dashboards_tool : Tool := createTool
  { name := "list_dashboards"
    description := "List all dashboards that exist in Directus. Supports filtering, sorting, pagination, and search. Example: \x7bfilter: \x7b\"name\": \x7b\"_contains\": \"sales\"\x7d\x7d, sort: [\"-date_created\"], limit: 10\x7d"
    inputSchema := ListDashboardsSchema
    toolsets := ["dashboards"]
    handler := fun args =>
      HandlerM.call (ClientCall.listDashboards args) HandlerM.ret }

/-- dashboard-tools.ts lines 73-82: destructures id from args and passes
the remaining params second. -/
def get_dashboard_tool : Tool := createTool
  { name := "get_dashboard"
    description := "Get a single dashboard by ID from Directus. Optionally specify fields to return and metadata options."
    inputSchema := GetDashboardSchema
    toolsets := ["dashboards"]
    handler := fun args =>
      HandlerM.call
        (ClientCall.getDashboard (jgetStr args "id") (jwithout args "id"))
        HandlerM.ret }

/-- dashboard-tools.ts lines 83-89. -/
def create_dashboard_tool : Tool := createTool
  { name := "create_dashboard"
    description := "Create a new dashboard in Directus. Provide the dashboard data including name and optional configuration. Example: \x7bname: \"Sales Dashboard\", icon: \"analytics\", color: \"#FF5722\", note: \"Main sales metrics\"\x7d"
    inputSchema := CreateDashboardSchema
    toolsets := ["dashboards"]
    handler := fun args =>
      HandlerM.call (ClientCall.createDashboard args) HandlerM.ret }

/-- dashboard-tools.ts lines 90-96: unwraps args.dashboards. -/
def create_dashboards_tool : Tool := createTool
  { name := "create_dashboards"
    description := "Create multiple dashboards in Directus at once. More efficient than creating dashboards one by one. Example: \x7bdashboards: [\x7bname: \"Dashboard 1\", icon: \"dashboard\"\x7d, \x7bname: \"Dashboard 2\", icon: \"analytics\"\x7d]\x7d"
    inputSchema := CreateDashboardsSchema
    toolsets := ["dashboards"]
    handler := fun args =>
      HandlerM.call (ClientCall.createDashboards (jgetArr args "dashboards"))
        HandlerM.ret }

/-- dashboard-tools.ts lines 97-106: destructures id from args and passes
the remaining data second. -/
def update_dashboard_tool : Tool := createTool
  { name := "update_dashboard"
    description := "Update an existing dashboard in Directus. Provide the dashboard ID and fields to update. Example: \x7bid: \"dashboard-uuid\", name: \"Updated Dashboard Name\", color: \"#4CAF50\"\x7d"
    inputSchema := UpdateDashboardSchema
    toolsets := ["dashboards"]
    handler := fun args =>
      HandlerM.call
        (ClientCall.updateDashboard (jgetStr args "id") (jwithout args "id"))
        HandlerM.ret }

/-- dashboard-tools.ts lines 107-113: unwraps args.dashboards. -/
def update_dashboards_tool : Tool := createTool
  { name := "update_dashboards"
    description := "Update multiple dashboards in Directus at once. Each dashboard must include an id field. Example: \x7bdashboards: [\x7bid: \"uuid-1\", name: \"Updated Name 1\"\x7d, \x7bid: \"uuid-2\", color: \"#FF9800\"\x7d]\x7d"
    inputSchema := UpdateDashboardsSchema
    toolsets := ["dashboards"]
    handler := fun args =>
      HandlerM.call (ClientCall.updateDashboards (jgetArr args "dashboards"))
        HandlerM.ret }

/-- dashboard-tools.ts lines 114-121: action tool passing args.id, with
the success message over the validated arguments. -/
def delete_dashboard_tool : Tool := createActionTool
  { name := "delete_dashboard"
    description := "Delete a dashboard from Directus by ID. This action cannot be undone."
    inputSchema := DeleteDashboardSchema
    toolsets := ["dashboards"]
    handler := fun args =>
      HandlerM.call (ClientCall.deleteDashboard (jgetStr args "id"))
        HandlerM.ret
    successMessage := fun args =>
      "Dashboard " ++ jgetStr args "id" ++ " deleted successfully" }

/-- dashboard-tools.ts lines 122-129: action tool passing args.ids, with
the success message counting the input ids. -/
def delete_dashboards_tool : Tool := createActionTool
  { name := "delete_dashboards"
    description := "Delete multiple dashboards from Directus at once by their IDs. This action cannot be undone. Example: \x7bids: [\"uuid-1\", \"uuid-2\", \"uuid-3\"]\x7d"
    inputSchema := DeleteDashboardsSchema
    toolsets := ["dashboards"]
    handler := fun args =>
      HandlerM.call (ClientCall.deleteDashboards (jgetStrList args "ids"))
        HandlerM.ret
    successMessage := fun args =>
      toString (jgetStrList args "ids").length ++
        " dashboards deleted successfully" }

/-- dashboard-tools.ts lines 65-130: the dashboard tool set, in source
order. -/
def dashboardTools : List Tool :=
  [list_dashboards_tool, get_dashboard_tool, create_dashboard_tool,
   create_dashboards_tool, update_dashboard_tool, update_dashboards_tool,
   delete_dashboard_tool, delete_dashboards_tool]

/-- Modelled from the spec: panel-tools.ts is not among the sources; the
spec makes the panel tool set analogous to the dashboard one, and the
panel test file fixes the schemas (list options as for dashboards). -/
def ListPanelsSchema : Schema := Schema.obj
  (Fields.ofList
  [("fields", FieldsSchema), ("filter", FilterSchema),
   ("search", SearchSchema), ("sort", SortSchema), ("limit", LimitSchema),
   ("offset", OffsetSchema), ("meta", MetaSchema)])

/-- Modelled from the spec: get_panel input, analogous to
GetDashboardSchema. -/
def GetPanelSchema : Schema := Schema.obj
  (Fields.ofList
  [("id", UuidSchema), ("fields", FieldsSchema), ("meta", MetaSchema)])

/-- Modelled from the spec: create_panel input; the panel test file makes
dashboard, name, type, position_x, position_y, width and height required
and icon, color, show_header, note, options, user_created, date_created
optional. -/
def CreatePanelSchema : Schema := Schema.obj
  (Fields.ofList
  [("dashboard", UuidSchema), ("name", Schema.strMin 1),
   ("icon", Schema.opt Schema.str), ("color", Schema.opt Schema.str),
   ("show_header", Schema.opt Schema.boolean),
   ("note", Schema.opt Schema.str), ("type", Schema.str),
   ("position_x", Schema.num), ("position_y", Schema.num),
   ("width", Schema.num), ("height", Schema.num),
   ("options", Schema.opt Schema.anyObj),
   ("user_created", Schema.opt UuidSchema),
   ("date_created", Schema.opt Schema.str)])

/-- Modelled from the spec: create_panels input wrapping an array of
panels, analogous to CreateDashboardsSchema. -/
def CreatePanelsSchema : Schema := Schema.obj
  (Fields.ofList
  [("panels", Schema.array CreatePanelSchema)])

/-- Modelled from the spec: update_panel input, the id plus every panel
field optional, analogous to UpdateDashboardSchema. -/
def UpdatePanelSchema : Schema := Schema.obj
  (Fields.ofList
  [("id", UuidSchema), ("name", Schema.opt Schema.str),
   ("icon", Schema.opt Schema.str), ("color", Schema.opt Schema.str),
   ("show_header", Schema.opt Schema.boolean),
   ("note", Schema.opt Schema.str), ("type", Schema.opt Schema.str),
   ("position_x", Schema.opt Schema.num),
   ("position_y", Schema.opt Schema.num),
   ("width", Schema.opt Schema.num), ("height", Schema.opt Schema.num),
   ("options", Schema.opt Schema.anyObj)])

/-- Modelled from the spec: update_panels input, analogous to
UpdateDashboardsSchema. -/
def UpdatePanelsSchema : Schema := Schema.obj
  (Fields.ofList
  [("panels", Schema.array UpdatePanelSchema)])

/-- Modelled from the spec: delete_panel input, analogous to
DeleteDashboardSchema. -/
def DeletePanelSchema : Schema := Schema.obj (Fields.ofList [("id", UuidSchema)])

/-- Modelled from the spec: delete_panels input, analogous to
DeleteDashboardsSchema (an array of plain strings). -/
def DeletePanelsSchema : Schema := Schema.obj
  (Fields.ofList
  [("ids", Schema.array Schema.str)])

/-- Modelled from the spec: list_panels, analogous to list_dashboards. -/
def list_panels_tool : Tool := createTool
  { name := "list_panels"
    description := "List all panels that exist in Directus. Supports filtering, sorting, pagination, and search."
    inputSchema := ListPanelsSchema
    toolsets := ["panels"]
    handler := fun args =>
      HandlerM.call (ClientCall.listPanels args) HandlerM.ret }

/-- Modelled from the spec: get_panel, analogous to get_dashboard; the
panel tests show the id passed first and the remaining params second. -/
def get_panel_tool : Tool := createTool
  { name := "get_panel"
    description := "Get a single panel by ID from Directus. Optionally specify fields to return and metadata options."
    inputSchema := GetPanelSchema
    toolsets := ["panels"]
    handler := fun args =>
      HandlerM.call
        (ClientCall.getPanel (jgetStr args "id") (jwithout args "id"))
        HandlerM.ret }

/-- Modelled from the spec: create_panel, analogous to create_dashboard. -/
def create_panel_tool : Tool := createTool
  { name := "create_panel"
    description := "Create a new panel in Directus. Provide the panel data including dashboard, name, type and layout."
    inputSchema := CreatePanelSchema
    toolsets := ["panels"]
    handler := fun args =>
      HandlerM.call (ClientCall.createPanel args) HandlerM.ret }

/-- Modelled from the spec: create_panels, analogous to
create_dashboards; the tests show args.panels unwrapped. -/
def create_panels_tool : Tool := createTool
  { name := "create_panels"
    description := "Create multiple panels in Directus at once. More efficient than creating panels one by one."
    inputSchema := CreatePanelsSchema
    toolsets := ["panels"]
    handler := fun args =>
      HandlerM.call (ClientCall.createPanels (jgetArr args "panels"))
        HandlerM.ret }

/-- Modelled from the spec: update_panel, analogous to update_dashboard;
the tests show the id passed first and the remaining data second. -/
def update_panel_tool : Tool := createTool
  { name := "update_panel"
    description := "Update an existing panel in Directus. Provide the panel ID and fields to update."
    inputSchema := UpdatePanelSchema
    toolsets := ["panels"]
    handler := fun args =>
      HandlerM.call
        (ClientCall.updatePanel (jgetStr args "id") (jwithout args "id"))
        HandlerM.ret }

/-- Modelled from the spec: update_panels, analogous to
update_dashboards. -/
def update_panels_tool : Tool := createTool
  { name := "update_panels"
    description := "Update multiple panels in Directus at once. Each panel must include an id field."
    inputSchema := UpdatePanelsSchema
    toolsets := ["panels"]
    handler := fun args =>
      HandlerM.call (ClientCall.updatePanels (jgetArr args "panels"))
        HandlerM.ret }

/-- Modelled from the spec: delete_panel, analogous to delete_dashboard;
the tests fix the success message text. -/
def delete_panel_tool : Tool := createActionTool
  { name := "delete_panel"
    description := "Delete a panel from Directus by ID. This action cannot be undone."
    inputSchema := DeletePanelSchema
    toolsets := ["panels"]
    handler := fun args =>
      HandlerM.call (ClientCall.deletePanel (jgetStr args "id"))
        HandlerM.ret
    successMessage := fun args =>
      "Panel " ++ jgetStr args "id" ++ " deleted successfully" }

/-- Modelled from the spec: delete_panels, analogous to
delete_dashboards; the tests fix the success message text. -/
def delete_panels_tool : Tool := createActionTool
  { name := "delete_panels"
    description := "Delete multiple panels from Directus at once by their IDs. This action cannot be undone."
    inputSchema := DeletePanelsSchema
    toolsets := ["panels"]
    handler := fun args =>
      HandlerM.call (ClientCall.deletePanels (jgetStrList args "ids"))
        HandlerM.ret
    successMessage := fun args =>
      toString (jgetStrList args "ids").length ++
        " panels deleted successfully" }

/-- Modelled from the spec: the panel tool set, analogous to
dashboardTools. -/
def panelTools : List Tool :=
  [list_panels_tool, get_panel_tool, create_panel_tool, create_panels_tool,
   update_panel_tool, update_panels_tool, delete_panel_tool,
   delete_panels_tool]

/-- Every tool of the repository: the dashboard set followed by the panel
set. -/
def allTools : List Tool :=
  dashboardTools ++ panelTools

/-- Following the spec's words, for comparison with the handlers: the
single backend call a tool is documented to make from its validated
arguments — the arguments passed through unchanged apart from the
documented reshaping (extracting id, unwrapping the dashboards / panels /
ids wrapper). -/
def specExpectedCall (toolName : String) (args : JValue) : Option ClientCall :=
  if toolName = "list_dashboards" then
    some (ClientCall.listDashboards args)
  else if toolName = "get_dashboard" then
    some (ClientCall.getDashboard (jgetStr args "id") (jwithout args "id"))
  else if toolName = "create_dashboard" then
    some (ClientCall.createDashboard args)
  else if toolName = "create_dashboards" then
    some (ClientCall.createDashboards (jgetArr args "dashboards"))
  else if toolName = "update_dashboard" then
    some (ClientCall.updateDashboard (jgetStr args "id") (jwithout args "id"))
  else if toolName = "update_dashboards" then
    some (ClientCall.updateDashboards (jgetArr args "dashboards"))
  else if toolName = "delete_dashboard" then
    some (ClientCall.deleteDashboard (jgetStr args "id"))
  else if toolName = "delete_dashboards" then
    some (ClientCall.deleteDashboards (jgetStrList args "ids"))
  else if toolName = "list_panels" then
    some (ClientCall.listPanels args)
  else if toolName = "get_panel" then
    some (ClientCall.getPanel (jgetStr args "id") (jwithout args "id"))
  else if toolName = "create_panel" then
    some (ClientCall.createPanel args)
  else if toolName = "create_panels" then
    some (ClientCall.createPanels (jgetArr args "panels"))
  else if toolName = "update_panel" then
    some (ClientCall.updatePanel (jgetStr args "id") (jwithout args "id"))
  else if toolName = "update_panels" then
    some (ClientCall.updatePanels (jgetArr args "panels"))
  else if toolName = "delete_panel" then
    some (ClientCall.deletePanel (jgetStr args "id"))
  else if toolName = "delete_panels" then
    some (ClientCall.deletePanels (jgetStrList args "ids"))
  else none

/-- Following the spec's words: the backend-client method named
correspondingly to a tool (list_dashboards calls listDashboards, and so
on). -/
def specCorrespondingMethod (toolName : String) : String :=
  if toolName = "list_dashboards" then "listDashboards"
  else if toolName = "get_dashboard" then "getDashboard"
  else if toolName = "create_dashboard" then "createDashboard"
  else if toolName = "create_dashboards" then "createDashboards"
  else if toolName = "update_dashboard" then "updateDashboard"
  else if toolName = "update_dashboards" then "updateDashboards"
  else if toolName = "delete_dashboard" then "deleteDashboard"
  else if toolName = "delete_dashboards" then "deleteDashboards"
  else if toolName = "list_panels" then "listPanels"
  else if toolName = "get_panel" then "getPanel"
  else if toolName = "create_panel" then "createPanel"
  else if toolName = "create_panels" then "createPanels"
  else if toolName = "update_panel" then "updatePanel"
  else if toolName = "update_panels" then "updatePanels"
  else if toolName = "delete_panel" then "deletePanel"
  else if toolName = "delete_panels" then "deletePanels"
  else ""

/-- The result text the delete tools are claimed to produce from their
validated arguments alone. -/
def deleteSuccessText (toolName : String) (args : JValue) : String :=
  if toolName = "delete_dashboard" then
    "Dashboard " ++ jgetStr args "id" ++ " deleted successfully"
  else if toolName = "delete_dashboards" then
    toString (jgetStrList args "ids").length ++ " dashboards deleted successfully"
  else if toolName = "delete_panel" then
    "Panel " ++ jgetStr args "id" ++ " deleted successfully"
  else if toolName = "delete_panels" then
    toString (jgetStrList args "ids").length ++ " panels deleted successfully"
  else ""

/-- Running a handler that makes one call and returns its response yields
exactly that call and the client's verdict on it. -/
theorem HandlerM.run_call_ret (client : Client) (c : ClientCall) :
    HandlerM.run client (HandlerM.call c HandlerM.ret) = ([c], client c) := by
  unfold HandlerM.run
  cases hv : client c <;> simp [HandlerM.run]

/-- An input rejected by the schema produces the error envelope with no
backend call. -/
theorem wrapRun_parse_none (sch : Schema) (h : JValue → HandlerM JValue)
    (fmt : Option (JValue → String)) (client : Client) (raw : JValue)
    (hp : Schema.parse sch raw = none) :
    wrapRun sch h fmt client raw =
      ([], { content := ["Invalid arguments"], isError := true }) := by
  unfold wrapRun
  rw [hp]

/-- A validated input driven through a single-call handler makes exactly
that call, and the envelope is determined by the client's verdict. -/
theorem wrapRun_single (sch : Schema) (h : JValue → HandlerM JValue)
    (fmt : Option (JValue → String)) (client : Client) (raw args : JValue)
    (c : ClientCall) (hp : Schema.parse sch raw = some args)
    (hc : h args = HandlerM.call c HandlerM.ret) :
    wrapRun sch h fmt client raw =
      ([c], match client c with
            | Except.ok v =>
                { content := [match fmt with
                              | some f => f args
                              | none => stringifyPretty v],
                  isError := false }
            | Except.error e => { content := [e], isError := true }) := by
  unfold wrapRun
  rw [hp]
  dsimp only
  rw [hc, HandlerM.run_call_ret]
  cases hv : client c <;> simp

/-- Failing the boolean check is exactly failing to parse. -/
theorem Schema.check_false {s : Schema} {v : JValue}
    (h : Schema.check s v = false) : Schema.parse s v = none := by
  unfold Schema.check at h
  cases hp : Schema.parse s v with
  | none => rfl
  | some w => rw [hp] at h; simp at h

/-- An input rejected by a createTool descriptor gives the error envelope
with no backend call. -/
theorem createTool_invalid (cfg : ToolConfig) (client : Client)
    (raw : JValue) (hp : Schema.parse cfg.inputSchema raw = none) :
    (createTool cfg).handler client raw =
      ([], { content := ["Invalid arguments"], isError := true }) := by
  show wrapRun cfg.inputSchema cfg.handler none client raw = _
  exact wrapRun_parse_none _ _ _ _ _ hp

/-- An input rejected by a createActionTool descriptor gives the error
envelope with no backend call. -/
theorem createActionTool_invalid (cfg : ActionToolConfig) (client : Client)
    (raw : JValue) (hp : Schema.parse cfg.inputSchema raw = none) :
    (createActionTool cfg).handler client raw =
      ([], { content := ["Invalid arguments"], isError := true }) := by
  show wrapRun cfg.inputSchema cfg.handler (some cfg.successMessage) client
    raw = _
  exact wrapRun_parse_none _ _ _ _ _ hp

/-- When an action tool's run (its handler making a single call) is not
an error, the input parsed and the result text is the formatter applied
to the parsed arguments. -/
theorem wrapRun_fmt_of_ok (sch : Schema) (h : JValue → HandlerM JValue)
    (f : JValue → String) (b : JValue → ClientCall) (client : Client)
    (raw : JValue)
    (hshape : ∀ a, h a = HandlerM.call (b a) HandlerM.ret)
    (he : (wrapRun sch h (some f) client raw).2.isError = false) :
    ∃ args, Schema.parse sch raw = some args ∧
      (wrapRun sch h (some f) client raw).2.content = [f args] := by
  cases hp : Schema.parse sch raw with
  | none => rw [wrapRun_parse_none sch h (some f) client raw hp] at he
            simp at he
  | some args =>
      rw [wrapRun_single sch h (some f) client raw args (b args) hp
        (hshape args)] at he ⊢
      refine ⟨args, rfl, ?_⟩
      cases hv : client (b args) with
      | ok v => rfl
      | error e => rw [hv] at he; simp at he

/-- Searching for a key among the entries from which it was filtered out
finds nothing. -/
theorem find?_filter_out (kvs : List (String × JValue)) (k : String) :
    List.find? (fun kv => kv.1 == k)
      (kvs.filter (fun kv => !(kv.1 == k))) = none := by
  induction kvs with
  | nil => rfl
  | cons a as ih =>
      by_cases h : a.1 == k
      · simp [List.filter_cons, h, ih]
      · simp [List.filter_cons, h, List.find?, ih]

/-- Removing a key by rest destructuring removes it: the remaining object
no longer binds it. -/
theorem jget_jwithout (v : JValue) (k : String) :
    jget (jwithout v k) k = none := by
  cases v with
  | obj kvs => simp [jwithout, jget, jfind, find?_filter_out]
  | null => rfl
  | bool b => rfl
  | num n => rfl
  | str s => rfl
  | arr xs => rfl

/-- Enumeration of membership in the combined tool list. -/
theorem mem_allTools_cases {t : Tool} (ht : t ∈ allTools) :
    t = list_dashboards_tool ∨ t = get_dashboard_tool ∨
    t = create_dashboard_tool ∨ t = create_dashboards_tool ∨
    t = update_dashboard_tool ∨ t = update_dashboards_tool ∨
    t = delete_dashboard_tool ∨ t = delete_dashboards_tool ∨
    t = list_panels_tool ∨ t = get_panel_tool ∨
    t = create_panel_tool ∨ t = create_panels_tool ∨
    t = update_panel_tool ∨ t = update_panels_tool ∨
    t = delete_panel_tool ∨ t = delete_panels_tool := by
  simp only [allTools, dashboardTools, panelTools, List.mem_append,
    List.mem_cons, List.not_mem_nil, or_false] at ht
  tauto

/-- wrapRun without a formatter, specialized: the serialized response on
success. -/
theorem wrapRun_single_plain (sch : Schema) (h : JValue → HandlerM JValue)
    (client : Client) (raw args : JValue) (c : ClientCall)
    (hp : Schema.parse sch raw = some args)
    (hc : h args = HandlerM.call c HandlerM.ret) :
    wrapRun sch h none client raw =
      ([c], match client c with
            | Except.ok v =>
                { content := [stringifyPretty v], isError := false }
            | Except.error e => { content := [e], isError := true }) := by
  rw [wrapRun_single sch h none client raw args c hp hc]

/-- wrapRun with a formatter, specialized: the formatter's text on
success. -/
theorem wrapRun_single_fmt (sch : Schema) (h : JValue → HandlerM JValue)
    (f : JValue → String) (client : Client) (raw args : JValue)
    (c : ClientCall) (hp : Schema.parse sch raw = some args)
    (hc : h args = HandlerM.call c HandlerM.ret) :
    wrapRun sch h (some f) client raw =
      ([c], match client c with
            | Except.ok _ => { content := [f args], isError := false }
            | Except.error e => { content := [e], isError := true }) := by
  rw [wrapRun_single sch h (some f) client raw args c hp hc]

/-- Run equation of list_dashboards on a validated input. -/
theorem run_list_dashboards (client : Client) (raw args : JValue)
    (hp : Schema.parse ListDashboardsSchema raw = some args) :
    list_dashboards_tool.handler client raw =
      ([ClientCall.listDashboards args],
        match client (ClientCall.listDashboards args) with
        | Except.ok v => { content := [stringifyPretty v], isError := false }
        | Except.error e => { content := [e], isError := true }) :=
  wrapRun_single_plain _ _ client raw args _ hp rfl

/-- Run equation of get_dashboard on a validated input. -/
theorem run_get_dashboard (client : Client) (raw args : JValue)
    (hp : Schema.parse GetDashboardSchema raw = some args) :
    get_dashboard_tool.handler client raw =
      ([ClientCall.getDashboard (jgetStr args "id") (jwithout args "id")],
        match client (ClientCall.getDashboard (jgetStr args "id")
            (jwithout args "id")) with
        | Except.ok v => { content := [stringifyPretty v], isError := false }
        | Except.error e => { content := [e], isError := true }) :=
  wrapRun_single_plain _ _ client raw args _ hp rfl

/-- Run equation of create_dashboard on a validated input. -/
theorem run_create_dashboard (client : Client) (raw args : JValue)
    (hp : Schema.parse CreateDashboardSchema raw = some args) :
    create_dashboard_tool.handler client raw =
      ([ClientCall.createDashboard args],
        match client (ClientCall.createDashboard args) with
        | Except.ok v => { content := [stringifyPretty v], isError := false }
        | Except.error e => { content := [e], isError := true }) :=
  wrapRun_single_plain _ _ client raw args _ hp rfl

/-- Run equation of create_dashboards on a validated input. -/
theorem run_create_dashboards (client : Client) (raw args : JValue)
    (hp : Schema.parse CreateDashboardsSchema raw = some args) :
    create_dashboards_tool.handler client raw =
      ([ClientCall.createDashboards (jgetArr args "dashboards")],
        match client (ClientCall.createDashboards
            (jgetArr args "dashboards")) with
        | Except.ok v => { content := [stringifyPretty v], isError := false }
        | Except.error e => { content := [e], isError := true }) :=
  wrapRun_single_plain _ _ client raw args _ hp rfl

/-- Run equation of update_dashboard on a validated input. -/
theorem run_update_dashboard (client : Client) (raw args : JValue)
    (hp : Schema.parse UpdateDashboardSchema raw = some args) :
    update_dashboard_tool.handler client raw =
      ([ClientCall.updateDashboard (jgetStr args "id") (jwithout args "id")],
        match client (ClientCall.updateDashboard (jgetStr args "id")
            (jwithout args "id")) with
        | Except.ok v => { content := [stringifyPretty v], isError := false }
        | Except.error e => { content := [e], isError := true }) :=
  wrapRun_single_plain _ _ client raw args _ hp rfl

/-- Run equation of update_dashboards on a validated input. -/
theorem run_update_dashboards (client : Client) (raw args : JValue)
    (hp : Schema.parse UpdateDashboardsSchema raw = some args) :
    update_dashboards_tool.handler client raw =
      ([ClientCall.updateDashboards (jgetArr args "dashboards")],
        match client (ClientCall.updateDashboards
            (jgetArr args "dashboards")) with
        | Except.ok v => { content := [stringifyPretty v], isError := false }
        | Except.error e => { content := [e], isError := true }) :=
  wrapRun_single_plain _ _ client raw args _ hp rfl

/-- Run equation of delete_dashboard on a validated input: the success
text depends only on the validated arguments. -/
theorem run_delete_dashboard (client : Client) (raw args : JValue)
    (hp : Schema.parse DeleteDashboardSchema raw = some args) :
    delete_dashboard_tool.handler client raw =
      ([ClientCall.deleteDashboard (jgetStr args "id")],
        match client (ClientCall.deleteDashboard (jgetStr args "id")) with
        | Except.ok _ =>
            { content := ["Dashboard " ++ jgetStr args "id" ++
                " deleted successfully"], isError := false }
        | Except.error e => { content := [e], isError := true }) :=
  wrapRun_single_fmt _ _ _ client raw args _ hp rfl

/-- Run equation of delete_dashboards on a validated input: the success
text counts the input ids. -/
theorem run_delete_dashboards (client : Client) (raw args : JValue)
    (hp : Schema.parse DeleteDashboardsSchema raw = some args) :
    delete_dashboards_tool.handler client raw =
      ([ClientCall.deleteDashboards (jgetStrList args "ids")],
        match client (ClientCall.deleteDashboards
            (jgetStrList args "ids")) with
        | Except.ok _ =>
            { content := [toString (jgetStrList args "ids").length ++
                " dashboards deleted successfully"], isError := false }
        | Except.error e => { content := [e], isError := true }) :=
  wrapRun_single_fmt _ _ _ client raw args _ hp rfl

/-- Run equation of list_panels on a validated input. -/
theorem run_list_panels (client : Client) (raw args : JValue)
    (hp : Schema.parse ListPanelsSchema raw = some args) :
    list_panels_tool.handler client raw =
      ([ClientCall.listPanels args],
        match client (ClientCall.listPanels args) with
        | Except.ok v => { content := [stringifyPretty v], isError := false }
        | Except.error e => { content := [e], isError := true }) :=
  wrapRun_single_plain _ _ client raw args _ hp rfl

/-- Run equation of get_panel on a validated input. -/
theorem run_get_panel (client : Client) (raw args : JValue)
    (hp : Schema.parse GetPanelSchema raw = some args) :
    get_panel_tool.handler client raw =
      ([ClientCall.getPanel (jgetStr args "id") (jwithout args "id")],
        match client (ClientCall.getPanel (jgetStr args "id")
            (jwithout args "id")) with
        | Except.ok v => { content := [stringifyPretty v], isError := false }
        | Except.error e => { content := [e], isError := true }) :=
  wrapRun_single_plain _ _ client raw args _ hp rfl

/-- Run equation of create_panel on a validated input. -/
theorem run_create_panel (client : Client) (raw args : JValue)
    (hp : Schema.parse CreatePanelSchema raw = some args) :
    create_panel_tool.handler client raw =
      ([ClientCall.createPanel args],
        match client (ClientCall.createPanel args) with
        | Except.ok v => { content := [stringifyPretty v], isError := false }
        | Except.error e => { content := [e], isError := true }) :=
  wrapRun_single_plain _ _ client raw args _ hp rfl

/-- Run equation of create_panels on a validated input. -/
theorem run_create_panels (client : Client) (raw args : JValue)
    (hp : Schema.parse CreatePanelsSchema raw = some args) :
    create_panels_tool.handler client raw =
      ([ClientCall.createPanels (jgetArr args "panels")],
        match client (ClientCall.createPanels (jgetArr args "panels")) with
        | Except.ok v => { content := [stringifyPretty v], isError := false }
        | Except.error e => { content := [e], isError := true }) :=
  wrapRun_single_plain _ _ client raw args _ hp rfl

/-- Run equation of update_panel on a validated input. -/
theorem run_update_panel (client : Client) (raw args : JValue)
    (hp : Schema.parse UpdatePanelSchema raw = some args) :
    update_panel_tool.handler client raw =
      ([ClientCall.updatePanel (jgetStr args "id") (jwithout args "id")],
        match client (ClientCall.updatePanel (jgetStr args "id")
            (jwithout args "id")) with
        | Except.ok v => { content := [stringifyPretty v], isError := false }
        | Except.error e => { content := [e], isError := true }) :=
  wrapRun_single_plain _ _ client raw args _ hp rfl

/-- Run equation of update_panels on a validated input. -/
theorem run_update_panels (client : Client) (raw args : JValue)
    (hp : Schema.parse UpdatePanelsSchema raw = some args) :
    update_panels_tool.handler client raw =
      ([ClientCall.updatePanels (jgetArr args "panels")],
        match client (ClientCall.updatePanels (jgetArr args "panels")) with
        | Except.ok v => { content := [stringifyPretty v], isError := false }
        | Except.error e => { content := [e], isError := true }) :=
  wrapRun_single_plain _ _ client raw args _ hp rfl

/-- Run equation of delete_panel on a validated input. -/
theorem run_delete_panel (client : Client) (raw args : JValue)
    (hp : Schema.parse DeletePanelSchema raw = some args) :
    delete_panel_tool.handler client raw =
      ([ClientCall.deletePanel (jgetStr args "id")],
        match client (ClientCall.deletePanel (jgetStr args "id")) with
        | Except.ok _ =>
            { content := ["Panel " ++ jgetStr args "id" ++
                " deleted successfully"], isError := false }
        | Except.error e => { content := [e], isError := true }) :=
  wrapRun_single_fmt _ _ _ client raw args _ hp rfl

/-- Run equation of delete_panels on a validated input. -/
theorem run_delete_panels (client : Client) (raw args : JValue)
    (hp : Schema.parse DeletePanelsSchema raw = some args) :
    delete_panels_tool.handler client raw =
      ([ClientCall.deletePanels (jgetStrList args "ids")],
        match client (ClientCall.deletePanels (jgetStrList args "ids")) with
        | Except.ok _ =>
            { content := [toString (jgetStrList args "ids").length ++
                " panels deleted successfully"], isError := false }
        | Except.error e => { content := [e], isError := true }) :=
  wrapRun_single_fmt _ _ _ client raw args _ hp rfl

/-- An object whose field list starts with a required min-length string
field parses only when that key is present, holds a string, and the
string is long enough. -/
theorem parse_obj_strMin_head {k : String} {n : Nat}
    {fs : Fields} {kvs : List (String × JValue)}
    (h : (Schema.parseFields (Fields.cons k (Schema.strMin n) fs)
      kvs).isSome = true) :
    ∃ s, jfind kvs k = some (JValue.str s) ∧ n ≤ s.length := by
  rw [Schema.parseFields] at h
  cases hn : jfind kvs k with
  | none => rw [hn] at h; simp [Schema.isOpt] at h
  | some v0 =>
      rw [hn] at h
      cases v0 with
      | str s =>
          refine ⟨s, rfl, ?_⟩
          by_contra hlen
          simp [Schema.parse, hlen] at h
      | null => simp [Schema.parse] at h
      | bool b => simp [Schema.parse] at h
      | num m => simp [Schema.parse] at h
      | arr xs => simp [Schema.parse] at h
      | obj o => simp [Schema.parse] at h

/-- A non-error delete_dashboard run parsed its input and its text is the
success message over the validated arguments. -/
theorem delete_dashboard_ok_content (client : Client) (raw : JValue)
    (he : (delete_dashboard_tool.handler client raw).2.isError = false) :
    ∃ args, Schema.parse DeleteDashboardSchema raw = some args ∧
      (delete_dashboard_tool.handler client raw).2.content =
        ["Dashboard " ++ jgetStr args "id" ++ " deleted successfully"] :=
  wrapRun_fmt_of_ok _ _ _ _ client raw (fun _ => rfl) he

/-- A non-error delete_dashboards run parsed its input and its text
counts the input ids. -/
theorem delete_dashboards_ok_content (client : Client) (raw : JValue)
    (he : (delete_dashboards_tool.handler client raw).2.isError = false) :
    ∃ args, Schema.parse DeleteDashboardsSchema raw = some args ∧
      (delete_dashboards_tool.handler client raw).2.content =
        [toString (jgetStrList args "ids").length ++
          " dashboards deleted successfully"] :=
  wrapRun_fmt_of_ok _ _ _ _ client raw (fun _ => rfl) he

/-- A non-error delete_panel run parsed its input and its text is the
success message over the validated arguments. -/
theorem delete_panel_ok_content (client : Client) (raw : JValue)
    (he : (delete_panel_tool.handler client raw).2.isError = false) :
    ∃ args, Schema.parse DeletePanelSchema raw = some args ∧
      (delete_panel_tool.handler client raw).2.content =
        ["Panel " ++ jgetStr args "id" ++ " deleted successfully"] :=
  wrapRun_fmt_of_ok _ _ _ _ client raw (fun _ => rfl) he

/-- A non-error delete_panels run parsed its input and its text counts
the input ids. -/
theorem delete_panels_ok_content (client : Client) (raw : JValue)
    (he : (delete_panels_tool.handler client raw).2.isError = false) :
    ∃ args, Schema.parse DeletePanelsSchema raw = some args ∧
      (delete_panels_tool.handler client raw).2.content =
        [toString (jgetStrList args "ids").length ++
          " panels deleted successfully"] :=
  wrapRun_fmt_of_ok _ _ _ _ client raw (fun _ => rfl) he

/-- Checking an object value against an object schema is exactly the
success of the field-list parse. -/
theorem check_obj_eq (fs : Fields) (kvs : List (String × JValue)) :
    Schema.check (Schema.obj fs) (JValue.obj kvs) =
      (Schema.parseFields fs kvs).isSome := by
  show ((Schema.parseFields fs kvs).map JValue.obj).isSome =
    (Schema.parseFields fs kvs).isSome
  cases Schema.parseFields fs kvs <;> rfl

/-- C10: the create_dashboard schema rejects an empty-string name: parsing
succeeds only when name is a string of length at least 1, while icon,
note, color, user_created and date_created may all be absent; so a lone
empty name is rejected and a lone one-character name is accepted. -/
theorem c10_create_dashboard_name_min1 :
    Schema.check CreateDashboardSchema
      (JValue.obj [("name", JValue.str "")]) = false ∧
    Schema.check CreateDashboardSchema
      (JValue.obj [("name", JValue.str "x")]) = true ∧
    ∀ v : JValue, Schema.check CreateDashboardSchema v = true →
      ∃ s : String, jget v "name" = some (JValue.str s) ∧ 1 ≤ s.length := by
  refine ⟨by decide, by decide, ?_⟩
  intro v hv
  cases v with
  | obj kvs =>
      unfold CreateDashboardSchema at hv
      rw [check_obj_eq] at hv
      exact parse_obj_strMin_head hv
  | null => exact Bool.noConfusion hv
  | bool b => exact Bool.noConfusion hv
  | num n => exact Bool.noConfusion hv
  | str s => exact Bool.noConfusion hv
  | arr xs => exact Bool.noConfusion hv

/-- C10 witness: instantiating the universal part at a concrete accepted
input. -/
theorem c10_witness :
    ∃ s : String,
      jget (JValue.obj [("name", JValue.str "ab")]) "name" =
        some (JValue.str s) ∧ 1 ≤ s.length :=
  c10_create_dashboard_name_min1.2.2 (JValue.obj [("name", JValue.str "ab")])
    (by decide)

/-- C5 counterexample: the ids entry of the bulk delete schema is
declared as z.array(z.string()), an array of the plain string primitive,
which is not the shared UuidSchema primitive; so not every ID parameter
is validated by the shared UUID schema. -/
theorem c5_counterexample :
    Schema.field DeleteDashboardsSchema "ids" =
      some (Schema.array Schema.str) ∧
    UuidSchema = Schema.uuid ∧
    Schema.array Schema.str ≠ Schema.array Schema.uuid := by
  refine ⟨rfl, rfl, ?_⟩
  intro h
  injection h with h2
  exact Schema.noConfusion h2

/-- C5 (amended): every dashboard or panel ID parameter of the tool
schemas is declared with the shared UuidSchema — directly for the
single-resource id fields and the create dashboard reference, as optional
UUID for user_created, and through composition for the nested bulk
arrays — except the ids arrays of the bulk delete tools, which are
declared as arrays of plain strings. -/
theorem c5_amended_shared_uuid_composition :
    Schema.field GetDashboardSchema "id" = some UuidSchema ∧
    Schema.field UpdateDashboardSchema "id" = some UuidSchema ∧
    Schema.field DeleteDashboardSchema "id" = some UuidSchema ∧
    Schema.field CreateDashboardSchema "user_created" =
      some (Schema.opt UuidSchema) ∧
    Schema.field CreateDashboardsSchema "dashboards" =
      some (Schema.array CreateDashboardSchema) ∧
    Schema.field UpdateDashboardsSchema "dashboards" =
      some (Schema.array UpdateDashboardSchema) ∧
    Schema.field DeleteDashboardsSchema "ids" =
      some (Schema.array Schema.str) ∧
    Schema.field GetPanelSchema "id" = some UuidSchema ∧
    Schema.field UpdatePanelSchema "id" = some UuidSchema ∧
    Schema.field DeletePanelSchema "id" = some UuidSchema ∧
    Schema.field CreatePanelSchema "dashboard" = some UuidSchema ∧
    Schema.field CreatePanelSchema "user_created" =
      some (Schema.opt UuidSchema) ∧
    Schema.field CreatePanelsSchema "panels" =
      some (Schema.array CreatePanelSchema) ∧
    Schema.field UpdatePanelsSchema "panels" =
      some (Schema.array UpdatePanelSchema) ∧
    Schema.field DeletePanelsSchema "ids" =
      some (Schema.array Schema.str) :=
  ⟨rfl, rfl, rfl, rfl, rfl, rfl, rfl, rfl, rfl, rfl, rfl, rfl, rfl, rfl,
   rfl⟩

/-- C4: every element of the dashboard and panel tool arrays is a uniform
descriptor carrying a name, a description, an input schema, toolset tags
and a handler, and the success-message formatter is present exactly on
the four delete (action) tools. -/
theorem c4_uniform_descriptor (t : Tool) (ht : t ∈ allTools) :
    t.name ≠ "" ∧ t.description ≠ "" ∧ t.toolsets ≠ [] ∧
    (t.successMessage.isSome = true ↔
      (t.name = "delete_dashboard" ∨ t.name = "delete_dashboards" ∨
       t.name = "delete_panel" ∨ t.name = "delete_panels")) := by
  rcases mem_allTools_cases ht with rfl | rfl | rfl | rfl | rfl | rfl |
    rfl | rfl | rfl | rfl | rfl | rfl | rfl | rfl | rfl | rfl <;> decide

/-- C4 witness: the descriptor invariant at the delete_dashboard tool. -/
theorem c4_witness :
    delete_dashboard_tool.name ≠ "" ∧
    delete_dashboard_tool.description ≠ "" ∧
    delete_dashboard_tool.toolsets ≠ [] ∧
    (delete_dashboard_tool.successMessage.isSome = true ↔
      (delete_dashboard_tool.name = "delete_dashboard" ∨
       delete_dashboard_tool.name = "delete_dashboards" ∨
       delete_dashboard_tool.name = "delete_panel" ∨
       delete_dashboard_tool.name = "delete_panels")) :=
  c4_uniform_descriptor delete_dashboard_tool
    (by simp [allTools, dashboardTools, panelTools])

/-- C1 counterexample: on a successful backend response, delete_dashboard
returns its success message, not the backend response serialized as
pretty-printed JSON; so not every tool returns the serialized response. -/
theorem c1_counterexample :
    (delete_dashboard_tool.handler
        (fun _ => Except.ok (JValue.obj [("ok", JValue.bool true)]))
        (JValue.obj [("id", JValue.str "d1")])).2.content ≠
      [stringifyPretty (JValue.obj [("ok", JValue.bool true)])] := by
  decide

/-- C1 (amended): for every tool in the dashboard and panel tool sets and
every validated argument object, invoking the handler makes a single
backend-client method call; on a successful backend response the result
content text is the response serialized to pretty-printed JSON, except
on the delete (action) tools, whose result text is their success message
computed from the validated arguments. -/
theorem c1_single_call_serialized_envelope (t : Tool) (ht : t ∈ allTools)
    (client : Client) (raw args : JValue)
    (hp : Schema.parse t.inputSchema raw = some args) :
    ∃ c : ClientCall, (t.handler client raw).1 = [c] ∧
      ∀ v : JValue, client c = Except.ok v →
        (t.handler client raw).2 =
          { content := [match t.successMessage with
                        | some f => f args
                        | none => stringifyPretty v],
            isError := false } := by
  rcases mem_allTools_cases ht with rfl | rfl | rfl | rfl | rfl | rfl |
    rfl | rfl | rfl | rfl | rfl | rfl | rfl | rfl | rfl | rfl
  · exact ⟨_, by rw [run_list_dashboards client raw args hp],
      fun v hv => by rw [run_list_dashboards client raw args hp, hv]; rfl⟩
  · exact ⟨_, by rw [run_get_dashboard client raw args hp],
      fun v hv => by rw [run_get_dashboard client raw args hp, hv]; rfl⟩
  · exact ⟨_, by rw [run_create_dashboard client raw args hp],
      fun v hv => by rw [run_create_dashboard client raw args hp, hv]; rfl⟩
  · exact ⟨_, by rw [run_create_dashboards client raw args hp],
      fun v hv => by rw [run_create_dashboards client raw args hp, hv]; rfl⟩
  · exact ⟨_, by rw [run_update_dashboard client raw args hp],
      fun v hv => by rw [run_update_dashboard client raw args hp, hv]; rfl⟩
  · exact ⟨_, by rw [run_update_dashboards client raw args hp],
      fun v hv => by rw [run_update_dashboards client raw args hp, hv]; rfl⟩
  · exact ⟨_, by rw [run_delete_dashboard client raw args hp],
      fun v hv => by rw [run_delete_dashboard client raw args hp, hv]; rfl⟩
  · exact ⟨_, by rw [run_delete_dashboards client raw args hp],
      fun v hv => by rw [run_delete_dashboards client raw args hp, hv]; rfl⟩
  · exact ⟨_, by rw [run_list_panels client raw args hp],
      fun v hv => by rw [run_list_panels client raw args hp, hv]; rfl⟩
  · exact ⟨_, by rw [run_get_panel client raw args hp],
      fun v hv => by rw [run_get_panel client raw args hp, hv]; rfl⟩
  · exact ⟨_, by rw [run_create_panel client raw args hp],
      fun v hv => by rw [run_create_panel client raw args hp, hv]; rfl⟩
  · exact ⟨_, by rw [run_create_panels client raw args hp],
      fun v hv => by rw [run_create_panels client raw args hp, hv]; rfl⟩
  · exact ⟨_, by rw [run_update_panel client raw args hp],
      fun v hv => by rw [run_update_panel client raw args hp, hv]; rfl⟩
  · exact ⟨_, by rw [run_update_panels client raw args hp],
      fun v hv => by rw [run_update_panels client raw args hp, hv]; rfl⟩
  · exact ⟨_, by rw [run_delete_panel client raw args hp],
      fun v hv => by rw [run_delete_panel client raw args hp, hv]; rfl⟩
  · exact ⟨_, by rw [run_delete_panels client raw args hp],
      fun v hv => by rw [run_delete_panels client raw args hp, hv]; rfl⟩

/-- C1 witness: the amended claim at list_dashboards on the empty
argument object against a client answering null. -/
theorem c1_witness :
    ∃ c : ClientCall,
      (list_dashboards_tool.handler (fun _ => Except.ok JValue.null)
        (JValue.obj [])).1 = [c] ∧
      ∀ v : JValue, (fun _ => Except.ok JValue.null : Client) c =
          Except.ok v →
        (list_dashboards_tool.handler (fun _ => Except.ok JValue.null)
          (JValue.obj [])).2 =
          { content := [match list_dashboards_tool.successMessage with
                        | some f => f (JValue.obj [])
                        | none => stringifyPretty v],
            isError := false } :=
  c1_single_call_serialized_envelope list_dashboards_tool
    (by simp [allTools, dashboardTools, panelTools])
    (fun _ => Except.ok JValue.null) (JValue.obj []) (JValue.obj []) rfl

/-- C2: for every tool the handler is wrapped with schema validation: an
input that does not satisfy the input schema is rejected with the error
envelope before any backend-client call, and a validated input is
forwarded to the backend client as a call. -/
theorem c2_validation_wrapper (t : Tool) (ht : t ∈ allTools)
    (client : Client) (raw : JValue) :
    (Schema.check t.inputSchema raw = false →
      t.handler client raw =
        ([], { content := ["Invalid arguments"], isError := true })) ∧
    (∀ args : JValue, Schema.parse t.inputSchema raw = some args →
      ∃ c : ClientCall, (t.handler client raw).1 = [c]) := by
  rcases mem_allTools_cases ht with rfl | rfl | rfl | rfl | rfl | rfl |
    rfl | rfl | rfl | rfl | rfl | rfl | rfl | rfl | rfl | rfl
  · exact ⟨fun hbad => createTool_invalid _ client raw
        (Schema.check_false hbad),
      fun args hp => ⟨_, by rw [run_list_dashboards client raw args hp]⟩⟩
  · exact ⟨fun hbad => createTool_invalid _ client raw
        (Schema.check_false hbad),
      fun args hp => ⟨_, by rw [run_get_dashboard client raw args hp]⟩⟩
  · exact ⟨fun hbad => createTool_invalid _ client raw
        (Schema.check_false hbad),
      fun args hp => ⟨_, by rw [run_create_dashboard client raw args hp]⟩⟩
  · exact ⟨fun hbad => createTool_invalid _ client raw
        (Schema.check_false hbad),
      fun args hp => ⟨_, by rw [run_create_dashboards client raw args hp]⟩⟩
  · exact ⟨fun hbad => createTool_invalid _ client raw
        (Schema.check_false hbad),
      fun args hp => ⟨_, by rw [run_update_dashboard client raw args hp]⟩⟩
  · exact ⟨fun hbad => createTool_invalid _ client raw
        (Schema.check_false hbad),
      fun args hp => ⟨_, by rw [run_update_dashboards client raw args hp]⟩⟩
  · exact ⟨fun hbad => createActionTool_invalid _ client raw
        (Schema.check_false hbad),
      fun args hp => ⟨_, by rw [run_delete_dashboard client raw args hp]⟩⟩
  · exact ⟨fun hbad => createActionTool_invalid _ client raw
        (Schema.check_false hbad),
      fun args hp => ⟨_, by rw [run_delete_dashboards client raw args hp]⟩⟩
  · exact ⟨fun hbad => createTool_invalid _ client raw
        (Schema.check_false hbad),
      fun args hp => ⟨_, by rw [run_list_panels client raw args hp]⟩⟩
  · exact ⟨fun hbad => createTool_invalid _ client raw
        (Schema.check_false hbad),
      fun args hp => ⟨_, by rw [run_get_panel client raw args hp]⟩⟩
  · exact ⟨fun hbad => createTool_invalid _ client raw
        (Schema.check_false hbad),
      fun args hp => ⟨_, by rw [run_create_panel client raw args hp]⟩⟩
  · exact ⟨fun hbad => createTool_invalid _ client raw
        (Schema.check_false hbad),
      fun args hp => ⟨_, by rw [run_create_panels client raw args hp]⟩⟩
  · exact ⟨fun hbad => createTool_invalid _ client raw
        (Schema.check_false hbad),
      fun args hp => ⟨_, by rw [run_update_panel client raw args hp]⟩⟩
  · exact ⟨fun hbad => createTool_invalid _ client raw
        (Schema.check_false hbad),
      fun args hp => ⟨_, by rw [run_update_panels client raw args hp]⟩⟩
  · exact ⟨fun hbad => createActionTool_invalid _ client raw
        (Schema.check_false hbad),
      fun args hp => ⟨_, by rw [run_delete_panel client raw args hp]⟩⟩
  · exact ⟨fun hbad => createActionTool_invalid _ client raw
        (Schema.check_false hbad),
      fun args hp => ⟨_, by rw [run_delete_panels client raw args hp]⟩⟩

/-- C2 witness: get_dashboard rejects the empty object before any call
and forwards a validated id. -/
theorem c2_witness :
    (Schema.check get_dashboard_tool.inputSchema (JValue.obj []) = false →
      get_dashboard_tool.handler (fun _ => Except.ok JValue.null)
        (JValue.obj []) =
        ([], { content := ["Invalid arguments"], isError := true })) ∧
    (∀ args : JValue,
      Schema.parse get_dashboard_tool.inputSchema (JValue.obj []) =
        some args →
      ∃ c : ClientCall,
        (get_dashboard_tool.handler (fun _ => Except.ok JValue.null)
          (JValue.obj [])).1 = [c]) :=
  c2_validation_wrapper get_dashboard_tool
    (by simp [allTools, dashboardTools, panelTools])
    (fun _ => Except.ok JValue.null) (JValue.obj [])

/-- C3: for every tool and validated input, the single backend call is
made and, when the backend rejects with an error, the tool returns the
stringified error in the uniform error envelope; the call list being the
one-element list shows there is no retry or other recovery. -/
theorem c3_catch_and_stringify (t : Tool) (ht : t ∈ allTools)
    (client : Client) (raw args : JValue)
    (hp : Schema.parse t.inputSchema raw = some args) :
    ∃ c : ClientCall, (t.handler client raw).1 = [c] ∧
      ∀ e : String, client c = Except.error e →
        (t.handler client raw).2 = { content := [e], isError := true } := by
  rcases mem_allTools_cases ht with rfl | rfl | rfl | rfl | rfl | rfl |
    rfl | rfl | rfl | rfl | rfl | rfl | rfl | rfl | rfl | rfl
  · exact ⟨_, by rw [run_list_dashboards client raw args hp],
      fun e he => by rw [run_list_dashboards client raw args hp, he]⟩
  · exact ⟨_, by rw [run_get_dashboard client raw args hp],
      fun e he => by rw [run_get_dashboard client raw args hp, he]⟩
  · exact ⟨_, by rw [run_create_dashboard client raw args hp],
      fun e he => by rw [run_create_dashboard client raw args hp, he]⟩
  · exact ⟨_, by rw [run_create_dashboards client raw args hp],
      fun e he => by rw [run_create_dashboards client raw args hp, he]⟩
  · exact ⟨_, by rw [run_update_dashboard client raw args hp],
      fun e he => by rw [run_update_dashboard client raw args hp, he]⟩
  · exact ⟨_, by rw [run_update_dashboards client raw args hp],
      fun e he => by rw [run_update_dashboards client raw args hp, he]⟩
  · exact ⟨_, by rw [run_delete_dashboard client raw args hp],
      fun e he => by rw [run_delete_dashboard client raw args hp, he]⟩
  · exact ⟨_, by rw [run_delete_dashboards client raw args hp],
      fun e he => by rw [run_delete_dashboards client raw args hp, he]⟩
  · exact ⟨_, by rw [run_list_panels client raw args hp],
      fun e he => by rw [run_list_panels client raw args hp, he]⟩
  · exact ⟨_, by rw [run_get_panel client raw args hp],
      fun e he => by rw [run_get_panel client raw args hp, he]⟩
  · exact ⟨_, by rw [run_create_panel client raw args hp],
      fun e he => by rw [run_create_panel client raw args hp, he]⟩
  · exact ⟨_, by rw [run_create_panels client raw args hp],
      fun e he => by rw [run_create_panels client raw args hp, he]⟩
  · exact ⟨_, by rw [run_update_panel client raw args hp],
      fun e he => by rw [run_update_panel client raw args hp, he]⟩
  · exact ⟨_, by rw [run_update_panels client raw args hp],
      fun e he => by rw [run_update_panels client raw args hp, he]⟩
  · exact ⟨_, by rw [run_delete_panel client raw args hp],
      fun e he => by rw [run_delete_panel client raw args hp, he]⟩
  · exact ⟨_, by rw [run_delete_panels client raw args hp],
      fun e he => by rw [run_delete_panels client raw args hp, he]⟩

/-- C3 witness: delete_dashboard against a rejecting backend returns the
stringified error in the error envelope after its single call. -/
theorem c3_witness :
    ∃ c : ClientCall,
      (delete_dashboard_tool.handler (fun _ => Except.error "boom")
        (JValue.obj [("id", JValue.str "d1")])).1 = [c] ∧
      ∀ e : String, (fun _ => Except.error "boom" : Client) c =
          Except.error e →
        (delete_dashboard_tool.handler (fun _ => Except.error "boom")
          (JValue.obj [("id", JValue.str "d1")])).2 =
          { content := [e], isError := true } :=
  c3_catch_and_stringify delete_dashboard_tool
    (by simp [allTools, dashboardTools, panelTools])
    (fun _ => Except.error "boom") (JValue.obj [("id", JValue.str "d1")])
    (JValue.obj [("id", JValue.str "d1")]) rfl

/-- C6: for every tool and every validated input, one handler invocation
calls exactly one backend-client method, and the call is the documented
one: the validated arguments passed through unchanged apart from the
documented reshaping (extracting id, unwrapping the dashboards / panels /
ids wrapper). -/
theorem c6_single_documented_call (t : Tool) (ht : t ∈ allTools)
    (client : Client) (raw args : JValue)
    (hp : Schema.parse t.inputSchema raw = some args) :
    ∃ c : ClientCall, specExpectedCall t.name args = some c ∧
      (t.handler client raw).1 = [c] := by
  rcases mem_allTools_cases ht with rfl | rfl | rfl | rfl | rfl | rfl |
    rfl | rfl | rfl | rfl | rfl | rfl | rfl | rfl | rfl | rfl
  · exact ⟨_, rfl, by rw [run_list_dashboards client raw args hp]⟩
  · exact ⟨_, rfl, by rw [run_get_dashboard client raw args hp]⟩
  · exact ⟨_, rfl, by rw [run_create_dashboard client raw args hp]⟩
  · exact ⟨_, rfl, by rw [run_create_dashboards client raw args hp]⟩
  · exact ⟨_, rfl, by rw [run_update_dashboard client raw args hp]⟩
  · exact ⟨_, rfl, by rw [run_update_dashboards client raw args hp]⟩
  · exact ⟨_, rfl, by rw [run_delete_dashboard client raw args hp]⟩
  · exact ⟨_, rfl, by rw [run_delete_dashboards client raw args hp]⟩
  · exact ⟨_, rfl, by rw [run_list_panels client raw args hp]⟩
  · exact ⟨_, rfl, by rw [run_get_panel client raw args hp]⟩
  · exact ⟨_, rfl, by rw [run_create_panel client raw args hp]⟩
  · exact ⟨_, rfl, by rw [run_create_panels client raw args hp]⟩
  · exact ⟨_, rfl, by rw [run_update_panel client raw args hp]⟩
  · exact ⟨_, rfl, by rw [run_update_panels client raw args hp]⟩
  · exact ⟨_, rfl, by rw [run_delete_panel client raw args hp]⟩
  · exact ⟨_, rfl, by rw [run_delete_panels client raw args hp]⟩

/-- C6 witness: update_dashboard on a concrete validated input makes
exactly its documented call. -/
theorem c6_witness :
    ∃ c : ClientCall,
      specExpectedCall update_dashboard_tool.name
        (JValue.obj [("id", JValue.str "d1"),
          ("name", JValue.str "New")]) = some c ∧
      (update_dashboard_tool.handler (fun _ => Except.ok JValue.null)
        (JValue.obj [("id", JValue.str "d1"),
          ("name", JValue.str "New")])).1 = [c] :=
  c6_single_documented_call update_dashboard_tool
    (by simp [allTools, dashboardTools, panelTools])
    (fun _ => Except.ok JValue.null)
    (JValue.obj [("id", JValue.str "d1"), ("name", JValue.str "New")])
    (JValue.obj [("id", JValue.str "d1"), ("name", JValue.str "New")]) rfl

/-- C7: the dashboard set contains exactly the eight distinctly named
CRUD tools in order, the panel set the eight analogous ones, and every
tool calls the correspondingly named backend-client method. -/
theorem c7_names_and_methods :
    dashboardTools.map Tool.name =
      ["list_dashboards", "get_dashboard", "create_dashboard",
       "create_dashboards", "update_dashboard", "update_dashboards",
       "delete_dashboard", "delete_dashboards"] ∧
    panelTools.map Tool.name =
      ["list_panels", "get_panel", "create_panel", "create_panels",
       "update_panel", "update_panels", "delete_panel", "delete_panels"] ∧
    ∀ t ∈ allTools, ∀ (client : Client) (raw args : JValue),
      Schema.parse t.inputSchema raw = some args →
      ∃ c : ClientCall, (t.handler client raw).1 = [c] ∧
        ClientCall.methodName c = specCorrespondingMethod t.name := by
  refine ⟨rfl, rfl, ?_⟩
  intro t ht client raw args hp
  rcases mem_allTools_cases ht with rfl | rfl | rfl | rfl | rfl | rfl |
    rfl | rfl | rfl | rfl | rfl | rfl | rfl | rfl | rfl | rfl
  · exact ⟨ClientCall.listDashboards args,
      by rw [run_list_dashboards client raw args hp], rfl⟩
  · exact ⟨ClientCall.getDashboard (jgetStr args "id") (jwithout args "id"),
      by rw [run_get_dashboard client raw args hp], rfl⟩
  · exact ⟨ClientCall.createDashboard args,
      by rw [run_create_dashboard client raw args hp], rfl⟩
  · exact ⟨ClientCall.createDashboards (jgetArr args "dashboards"),
      by rw [run_create_dashboards client raw args hp], rfl⟩
  · exact ⟨ClientCall.updateDashboard (jgetStr args "id") (jwithout args "id"),
      by rw [run_update_dashboard client raw args hp], rfl⟩
  · exact ⟨ClientCall.updateDashboards (jgetArr args "dashboards"),
      by rw [run_update_dashboards client raw args hp], rfl⟩
  · exact ⟨ClientCall.deleteDashboard (jgetStr args "id"),
      by rw [run_delete_dashboard client raw args hp], rfl⟩
  · exact ⟨ClientCall.deleteDashboards (jgetStrList args "ids"),
      by rw [run_delete_dashboards client raw args hp], rfl⟩
  · exact ⟨ClientCall.listPanels args,
      by rw [run_list_panels client raw args hp], rfl⟩
  · exact ⟨ClientCall.getPanel (jgetStr args "id") (jwithout args "id"),
      by rw [run_get_panel client raw args hp], rfl⟩
  · exact ⟨ClientCall.createPanel args,
      by rw [run_create_panel client raw args hp], rfl⟩
  · exact ⟨ClientCall.createPanels (jgetArr args "panels"),
      by rw [run_create_panels client raw args hp], rfl⟩
  · exact ⟨ClientCall.updatePanel (jgetStr args "id") (jwithout args "id"),
      by rw [run_update_panel client raw args hp], rfl⟩
  · exact ⟨ClientCall.updatePanels (jgetArr args "panels"),
      by rw [run_update_panels client raw args hp], rfl⟩
  · exact ⟨ClientCall.deletePanel (jgetStr args "id"),
      by rw [run_delete_panel client raw args hp], rfl⟩
  · exact ⟨ClientCall.deletePanels (jgetStrList args "ids"),
      by rw [run_delete_panels client raw args hp], rfl⟩

/-- C7 witness: instantiating the universal part at list_panels on the
empty argument object. -/
theorem c7_witness :
    ∃ c : ClientCall,
      (list_panels_tool.handler (fun _ => Except.ok JValue.null)
        (JValue.obj [])).1 = [c] ∧
      ClientCall.methodName c =
        specCorrespondingMethod list_panels_tool.name :=
  c7_names_and_methods.2.2 list_panels_tool
    (by simp [allTools, dashboardTools, panelTools])
    (fun _ => Except.ok JValue.null) (JValue.obj []) (JValue.obj []) rfl

/-- C8: for every validated input to the single-resource get, update and
delete tools, the id field is extracted and passed as the separate first
argument of the backend call, and the object forwarded as the remaining
parameters or update payload — when the method takes one — is the input
without its id field, all other fields unchanged. -/
theorem c8_id_extracted_and_stripped (t : Tool) (ht : t ∈ allTools)
    (hn : t.name = "get_dashboard" ∨ t.name = "update_dashboard" ∨
      t.name = "delete_dashboard" ∨ t.name = "get_panel" ∨
      t.name = "update_panel" ∨ t.name = "delete_panel")
    (client : Client) (raw args : JValue)
    (hp : Schema.parse t.inputSchema raw = some args) :
    ∃ c : ClientCall, (t.handler client raw).1 = [c] ∧
      ClientCall.idArg c = some (jgetStr args "id") ∧
      ∀ p : JValue, ClientCall.payload c = some p →
        p = jwithout args "id" ∧ jget p "id" = none := by
  rcases mem_allTools_cases ht with rfl | rfl | rfl | rfl | rfl | rfl |
    rfl | rfl | rfl | rfl | rfl | rfl | rfl | rfl | rfl | rfl
  · exact absurd hn (by decide)
  · exact ⟨ClientCall.getDashboard (jgetStr args "id") (jwithout args "id"),
      by rw [run_get_dashboard client raw args hp], rfl,
      fun p hp2 => by
        have h2 := Option.some.inj hp2
        subst h2
        exact ⟨rfl, jget_jwithout args "id"⟩⟩
  · exact absurd hn (by decide)
  · exact absurd hn (by decide)
  · exact ⟨ClientCall.updateDashboard (jgetStr args "id")
        (jwithout args "id"),
      by rw [run_update_dashboard client raw args hp], rfl,
      fun p hp2 => by
        have h2 := Option.some.inj hp2
        subst h2
        exact ⟨rfl, jget_jwithout args "id"⟩⟩
  · exact absurd hn (by decide)
  · exact ⟨ClientCall.deleteDashboard (jgetStr args "id"),
      by rw [run_delete_dashboard client raw args hp], rfl,
      fun p hp2 => Option.noConfusion hp2⟩
  · exact absurd hn (by decide)
  · exact absurd hn (by decide)
  · exact ⟨ClientCall.getPanel (jgetStr args "id") (jwithout args "id"),
      by rw [run_get_panel client raw args hp], rfl,
      fun p hp2 => by
        have h2 := Option.some.inj hp2
        subst h2
        exact ⟨rfl, jget_jwithout args "id"⟩⟩
  · exact absurd hn (by decide)
  · exact absurd hn (by decide)
  · exact ⟨ClientCall.updatePanel (jgetStr args "id") (jwithout args "id"),
      by rw [run_update_panel client raw args hp], rfl,
      fun p hp2 => by
        have h2 := Option.some.inj hp2
        subst h2
        exact ⟨rfl, jget_jwithout args "id"⟩⟩
  · exact absurd hn (by decide)
  · exact ⟨ClientCall.deletePanel (jgetStr args "id"),
      by rw [run_delete_panel client raw args hp], rfl,
      fun p hp2 => Option.noConfusion hp2⟩
  · exact absurd hn (by decide)

/-- C8 witness: update_dashboard on a concrete validated input forwards
the id first and the id-stripped payload second. -/
theorem c8_witness :
    ∃ c : ClientCall,
      (update_dashboard_tool.handler (fun _ => Except.ok JValue.null)
        (JValue.obj [("id", JValue.str "d1"),
          ("color", JValue.str "#4CAF50")])).1 = [c] ∧
      ClientCall.idArg c =
        some (jgetStr (JValue.obj [("id", JValue.str "d1"),
          ("color", JValue.str "#4CAF50")]) "id") ∧
      ∀ p : JValue, ClientCall.payload c = some p →
        p = jwithout (JValue.obj [("id", JValue.str "d1"),
          ("color", JValue.str "#4CAF50")]) "id" ∧ jget p "id" = none :=
  c8_id_extracted_and_stripped update_dashboard_tool
    (by simp [allTools, dashboardTools, panelTools]) (by decide)
    (fun _ => Except.ok JValue.null)
    (JValue.obj [("id", JValue.str "d1"), ("color", JValue.str "#4CAF50")])
    (JValue.obj [("id", JValue.str "d1"), ("color", JValue.str "#4CAF50")])
    rfl

/-- C9: for the delete tools the result text is determined by the
validated input alone, not by the backend response: two non-error runs
with the same arguments but different backends produce the same text,
and that text is the documented success message built from the input
(the id, or the count of the input ids). -/
theorem c9_delete_text_input_only (t : Tool) (ht : t ∈ allTools)
    (hn : t.name = "delete_dashboard" ∨ t.name = "delete_dashboards" ∨
      t.name = "delete_panel" ∨ t.name = "delete_panels") :
    (∀ (client client2 : Client) (raw : JValue),
      (t.handler client raw).2.isError = false →
      (t.handler client2 raw).2.isError = false →
      (t.handler client raw).2.content = (t.handler client2 raw).2.content) ∧
    (∀ (client : Client) (raw args : JValue),
      Schema.parse t.inputSchema raw = some args →
      (t.handler client raw).2.isError = false →
      (t.handler client raw).2.content = [deleteSuccessText t.name args]) := by
  rcases mem_allTools_cases ht with rfl | rfl | rfl | rfl | rfl | rfl |
    rfl | rfl | rfl | rfl | rfl | rfl | rfl | rfl | rfl | rfl
  · exact absurd hn (by decide)
  · exact absurd hn (by decide)
  · exact absurd hn (by decide)
  · exact absurd hn (by decide)
  · exact absurd hn (by decide)
  · exact absurd hn (by decide)
  · constructor
    · intro client client2 raw h1 h2
      obtain ⟨a1, hp1, hc1⟩ := delete_dashboard_ok_content client raw h1
      obtain ⟨a2, hp2, hc2⟩ := delete_dashboard_ok_content client2 raw h2
      rw [hc1, hc2, Option.some.inj (hp1.symm.trans hp2)]
    · intro client raw args hp he
      obtain ⟨a, hpa, hca⟩ := delete_dashboard_ok_content client raw he
      rw [hca, Option.some.inj (hpa.symm.trans hp)]
      rfl
  · constructor
    · intro client client2 raw h1 h2
      obtain ⟨a1, hp1, hc1⟩ := delete_dashboards_ok_content client raw h1
      obtain ⟨a2, hp2, hc2⟩ := delete_dashboards_ok_content client2 raw h2
      rw [hc1, hc2, Option.some.inj (hp1.symm.trans hp2)]
    · intro client raw args hp he
      obtain ⟨a, hpa, hca⟩ := delete_dashboards_ok_content client raw he
      rw [hca, Option.some.inj (hpa.symm.trans hp)]
      rfl
  · exact absurd hn (by decide)
  · exact absurd hn (by decide)
  · exact absurd hn (by decide)
  · exact absurd hn (by decide)
  · exact absurd hn (by decide)
  · exact absurd hn (by decide)
  · constructor
    · intro client client2 raw h1 h2
      obtain ⟨a1, hp1, hc1⟩ := delete_panel_ok_content client raw h1
      obtain ⟨a2, hp2, hc2⟩ := delete_panel_ok_content client2 raw h2
      rw [hc1, hc2, Option.some.inj (hp1.symm.trans hp2)]
    · intro client raw args hp he
      obtain ⟨a, hpa, hca⟩ := delete_panel_ok_content client raw he
      rw [hca, Option.some.inj (hpa.symm.trans hp)]
      rfl
  · constructor
    · intro client client2 raw h1 h2
      obtain ⟨a1, hp1, hc1⟩ := delete_panels_ok_content client raw h1
      obtain ⟨a2, hp2, hc2⟩ := delete_panels_ok_content client2 raw h2
      rw [hc1, hc2, Option.some.inj (hp1.symm.trans hp2)]
    · intro client raw args hp he
      obtain ⟨a, hpa, hca⟩ := delete_panels_ok_content client raw he
      rw [hca, Option.some.inj (hpa.symm.trans hp)]
      rfl

/-- C9 witness: the delete_dashboards hyperproperty at a concrete input. -/
theorem c9_witness :
    (∀ (client client2 : Client) (raw : JValue),
      (delete_dashboards_tool.handler client raw).2.isError = false →
      (delete_dashboards_tool.handler client2 raw).2.isError = false →
      (delete_dashboards_tool.handler client raw).2.content =
        (delete_dashboards_tool.handler client2 raw).2.content) ∧
    (∀ (client : Client) (raw args : JValue),
      Schema.parse delete_dashboards_tool.inputSchema raw = some args →
      (delete_dashboards_tool.handler client raw).2.isError = false →
      (delete_dashboards_tool.handler client raw).2.content =
        [deleteSuccessText delete_dashboards_tool.name args]) :=
  c9_delete_text_input_only delete_dashboards_tool
    (by simp [allTools, dashboardTools, panelTools]) (by decide)
